import Mathlib

/-! Shallow embedding of the ScriptFS sources, src/src/scriptfs.c and
    src/src/operations.c.  Machine integers are modelled as Nat with explicit
    masking where the C code masks 32-bit values; errno constants carry the
    standard Linux numbers the code relies on.  Filesystem and process side
    effects of the operating system are modelled by an explicit World state
    (mirror directory, live temporary files, the stream of names mkstemp will
    hand out) and an Env oracle for spawning external programs
    (execute_program / call_program collapse to this oracle: the exit status
    and the bytes the child writes to its redirected stdout). -/

namespace ScriptFS

/-- File contents as a list of byte values. -/
abbrev Bytes := List Nat

def EACCES : Int := 13
def ENOENT : Int := 2
def EBADF : Int := 9
def EISDIR : Int := 21

def O_WRONLY : Nat := 1
def O_RDWR : Nat := 2

/-- S_ISREG from sys/stat.h: file-type bits are masked by 0xF000 and a regular
    file has type 0x8000. -/
def S_ISREG (m : Nat) : Bool := m &&& 0xF000 == 0x8000

/-- The three write permission bits S_IWUSR, S_IWGRP, S_IWOTH together (octal 222). -/
def S_IWALL : Nat := 146

/-- The 32-bit complement of S_IWALL: the mask the C code applies with
    mode and-equal tilde (S_IWUSR or S_IWGRP or S_IWOTH). -/
def NOTW : Nat := 0xFFFFFF6D

/-- One regular file (or other inode) of the mirror directory, as seen through
    the fstatat / openat / faccessat calls of the code.  The executable flag
    is the faccessat X_OK oracle and the writable flag is the
    openat O_WRONLY permission oracle; both depend on OS state (effective
    uid and so on) that the code merely consults. -/
structure MirrorFile where
  mode : Nat
  size : Nat
  atime : Int
  mtime : Int
  data : Bytes
  executable : Bool
  writable : Bool
deriving DecidableEq

/-- A named temporary file created by temp_copy under the tmp_template:
    its copied contents and the mode set by fchmod. -/
structure TempFile where
  data : Bytes
  mode : Nat
deriving DecidableEq

/-- OS state threaded through the operations: the mirror directory as an
    association list keyed by mirror-relative path, the currently linked
    temporary files, and the stream of fresh names that successive mkstemp
    calls on tmp_template will produce (an empty stream models mkstemp
    failure). -/
structure World where
  mirror : List (String × MirrorFile)
  temps : List (String × TempFile)
  fresh : List String
deriving DecidableEq

/-- The stat fields the code reads or rewrites (st_mode, st_size, times). -/
structure Stat where
  mode : Nat
  size : Nat
  atime : Int
  mtime : Int
deriving DecidableEq

def MirrorFile.stat (f : MirrorFile) : Stat := ⟨f.mode, f.size, f.atime, f.mtime⟩

/-- Oracle for execute_program: given the world at spawn time, the program
    path, the argv array and the bytes streamed to the child stdin (none when
    stdin is closed), it yields the exit status the parent observes after
    waitpid (abnormal termination is already folded to the nonzero status the
    code returns) and the bytes the child wrote to the descriptor its stdout
    was redirected to.  mkstempErrno is the errno value a failing mkstemp
    leaves behind, negated and returned by run_script. -/
structure Env where
  exec : World → String → List String → Option Bytes → Int × Bytes
  mkstempErrno : Int

/-- The test function pointer stored in a Test structure: one of the
    test_true, test_false, test_shell, test_executable, test_shell_executable,
    test_pattern, test_program functions of operations.c. -/
inductive TestFn where
  | ttrue
  | tfalse
  | shell
  | executable
  | shellExecutable
  | pattern
  | prog
deriving DecidableEq

/-- The Test structure of procedures.h as used by operations.c: the function
    pointer (none models a null func pointer), the external program path, the
    argv template, the position of the file placeholder inside argv (none
    models a null filearg pointer), the filter flag, and the compiled regex
    (modelled by its decision function; none models a null compiled field). -/
structure Test where
  func : Option TestFn
  path : String
  args : Option (List String)
  filearg : Option Nat
  filter : Bool
  compiled : Option (String → Bool)

/-- The program function pointer of a Program structure: program_shell or
    program_external from operations.c. -/
inductive ProgFn where
  | progShell
  | progExternal
deriving DecidableEq

/-- The Program structure of procedures.h as used by operations.c. -/
structure Program where
  func : ProgFn
  path : String
  args : Option (List String)
  filearg : Option Nat
  filter : Bool

/-- A Procedure pairs the program to run with the test that classifies
    (test none models a null test pointer, skipped by get_script). -/
structure Procedure where
  program : Program
  test : Option Test

/-- The persistent configuration relevant to the modelled operations:
    the ordered procedure list and the -l flag. -/
structure Persistent where
  procs : List Procedure
  return_real_size : Bool

/-- fstatat / openat on the mirror directory descriptor resolve a relative
    path in the mirror. -/
def lookupFile (w : World) (p : String) : Option MirrorFile := List.lookup p w.mirror

/-- Replace the mirror entry at a path (the effect of a successful
    fchmodat, ftruncate or utimensat on the mirror). -/
def updateFile (w : World) (p : String) (f : MirrorFile) : World :=
  { w with mirror := w.mirror.map (fun e => if e.fst == p then (p, f) else e) }

/-- unlink of a temporary file name. -/
def removeTemp (w : World) (n : String) : World :=
  { w with temps := w.temps.filter (fun e => !(e.fst == n)) }

/-- relative_path from scriptfs.c: a null or empty path yields a null result,
    the root path "/" becomes ".", and any other path loses its first
    character (strcpy of path+1), with no further normalization. -/
def relative_path (path : String) : Option String :=
  match path.data with
  | [] => none
  | ['/'] => some "."
  | _ :: rest => some (String.mk rest)

/-- temp_copy from operations.c: open the mirror file, mkstemp a fresh name
    from tmp_template, copy the bytes across and fchmod the copy to the
    owner read and execute bits of the source (mask octal 500 = 320).
    Failure to open the source or to create the temp file yields none. -/
def temp_copy (w : World) (file : String) : Option String × World :=
  match lookupFile w file with
  | none => (none, w)
  | some f =>
    match w.fresh with
    | [] => (none, w)
    | n :: rest =>
      (some n, { w with temps := (n, ⟨f.data, f.mode &&& 320⟩) :: w.temps, fresh := rest })

/-- test_shell from operations.c: true iff the mirror file can be opened and
    its first two bytes are the shebang magic, byte 35 then byte 33. -/
def test_shell (w : World) (file : String) : Bool :=
  match lookupFile w file with
  | none => false
  | some f => f.data.take 2 == [35, 33]

/-- test_executable from operations.c: faccessat with X_OK succeeds. -/
def test_executable (w : World) (file : String) : Bool :=
  match lookupFile w file with
  | none => false
  | some f => f.executable

/-- test_program from operations.c: substitute the tested file name at the
    filearg position of the argv template (when both args and filearg are
    present), stream the mirror file to the child stdin when the filter flag
    is set (degrading to no stdin when the file cannot be opened), run the
    external test program with its stdout discarded, and report a match iff
    the exit status is zero.  The argv restore hack after the call has no
    observable effect and is not modelled. -/
def test_program (env : Env) (w : World) (t : Test) (file : String) : Bool :=
  let args : Option (List String) :=
    match t.args, t.filearg with
    | some l, some i => some (l.set i file)
    | a, _ => a
  let pin : Option String := if t.filter then some file else none
  let stdinBytes := pin.bind (fun q => (lookupFile w q).map (fun f => f.data))
  (env.exec w t.path (args.getD []) stdinBytes).fst == 0

/-- Dispatch of the test function pointer, one case per test_* function of
    operations.c (test_shell_executable is the disjunction of test_shell and
    test_executable; test_pattern is false when the compiled field is null,
    else the regexec decision on the full path as passed). -/
def runTestF (env : Env) (w : World) (t : Test) (k : TestFn) (file : String) : Bool :=
  match k with
  | .ttrue => true
  | .tfalse => false
  | .shell => test_shell w file
  | .executable => test_executable w file
  | .shellExecutable => test_shell w file || test_executable w file
  | .pattern =>
    match t.compiled with
    | none => false
    | some rx => rx file
  | .prog => test_program env w t file

/-- The matching condition of one loop step of get_script: the procedure has
    a non-null test with a non-null function pointer and that test returns
    nonzero on the file. -/
def procMatches (env : Env) (w : World) (pr : Procedure) (file : String) : Bool :=
  match pr.test with
  | none => false
  | some t =>
    match t.func with
    | none => false
    | some k => runTestF env w t k file

/-- get_script from operations.c: walk the procedure list in order and return
    the first procedure whose test matches the file, or none. -/
def get_script (env : Env) (w : World) (procs : List Procedure) (file : String) :
    Option Procedure :=
  match procs with
  | [] => none
  | pr :: rest =>
    if procMatches env w pr file then some pr else get_script env w rest file

/-- Substitution at the filearg position: writing a string replaces the
    placeholder element; writing a null pointer (temp_copy failure in
    program_external) truncates the argv the child sees at that position,
    because execve stops at the first null element. -/
def setArg (l : List String) (i : Nat) (v : Option String) : List String :=
  match v with
  | some s => l.set i s
  | none => l.take i

/-- program_shell from operations.c: make a temp copy of the script, run the
    copy as argv zero with stdin closed and stdout captured into the
    artifact, unlink the copy, and return the exit status.  When temp_copy
    fails the function returns a negative errno; its exact value is
    irrelevant because run_script ignores the program return value. -/
def program_shell (env : Env) (w : World) (file : String) : Int × Bytes × World :=
  match temp_copy w file with
  | (none, w1) => (-1, [], w1)
  | (some n, w1) =>
    let r := env.exec w1 n [n] none
    (r.fst, r.snd, removeTemp w1 n)

/-- program_external from operations.c: when the argv template has a file
    placeholder, substitute a fresh temp copy of the script there; when the
    program is a filter with no placeholder, stream the mirror file to the
    child stdin; run the external program with stdout captured into the
    artifact; finally unlink the temp copy (only when one was made). -/
def program_external (env : Env) (w : World) (p : Program) (file : String) :
    Int × Bytes × World :=
  let tcw : Option String × World :=
    match p.args, p.filearg with
    | some _, some _ => temp_copy w file
    | _, _ => (none, w)
  let args : Option (List String) :=
    match p.args, p.filearg with
    | some l, some i => some (setArg l i tcw.fst)
    | a, _ => a
  let pin : Option String := if p.filter && p.filearg.isNone then some file else none
  let stdinBytes := pin.bind (fun q => (lookupFile w q).map (fun f => f.data))
  let r := env.exec tcw.snd p.path (args.getD []) stdinBytes
  let w2 :=
    match p.args, p.filearg, tcw.fst with
    | some _, some _, some n => removeTemp tcw.snd n
    | _, _, _ => tcw.snd
  (r.fst, r.snd, w2)

/-- Dispatch of the program function pointer stored in a Program. -/
def run_program (env : Env) (w : World) (prog : Program) (file : String) :
    Int × Bytes × World :=
  match prog.func with
  | .progShell => program_shell env w file
  | .progExternal => program_external env w prog file

/-- run_script from scriptfs.c: mkstemp a temp file from tmp_template
    (failure returns minus errno), unlink it at once so the artifact is
    anonymous, run the program of the procedure with stdout captured into
    the artifact while ignoring its exit status, and hand back the open
    artifact, that is the bytes the child produced. -/
def run_script (env : Env) (w : World) (proc : Procedure) (relative : String) :
    Except Int Bytes × World :=
  match w.fresh with
  | [] => (.error (-env.mkstempErrno), w)
  | _ :: rest =>
    let r := run_program env { w with fresh := rest } proc.program relative
    (.ok r.2.1, r.2.2)

/-- What an open descriptor stored in a FileStruct designates: a mirror file
    reached through openat, or the anonymous unlinked artifact produced by
    run_script, carrying its own contents. -/
inductive FdTarget where
  | mirrorFd (path : String)
  | anonFd (data : Bytes)
deriving DecidableEq

/-- The type tag of a FileStruct (operations.h): directory, pass-through
    regular file, or script artifact. -/
inductive FType where
  | T_FOLDER
  | T_FILE
  | T_SCRIPT
deriving DecidableEq

/-- The per-open FileStruct of operations.h: type tag, underlying descriptor
    and remembered relative file name (the FILENAME_MAX_LENGTH truncation of
    strncpy is not modelled). -/
structure FileStruct where
  type : FType
  file_handle : FdTarget
  filename : String
deriving DecidableEq

/-- sfs_open from scriptfs.c.  A classified script refuses the write-mode
    open flags with EACCES, otherwise runs the script into an anonymous
    artifact and returns a T_SCRIPT handle; the exit status of the child is
    ignored (run_script drops it).  A non-classified path is opened on the
    mirror as a T_FILE handle (mode and flag based refusals of openat other
    than existence are outside the modelled state).  A null or empty path
    cannot reach this callback and is mapped to ENOENT. -/
def sfs_open (P : Persistent) (env : Env) (w : World) (path : String) (flags : Nat) :
    Except Int FileStruct × World :=
  match relative_path path with
  | none => (.error (-ENOENT), w)
  | some rel =>
    match get_script env w P.procs rel with
    | some proc =>
      if flags &&& O_WRONLY != 0 || flags &&& O_RDWR != 0 then (.error (-EACCES), w)
      else
        match run_script env w proc rel with
        | (.error e, w1) => (.error e, w1)
        | (.ok out, w1) => (.ok ⟨.T_SCRIPT, .anonFd out, rel⟩, w1)
    | none =>
      match lookupFile w rel with
      | none => (.error (-ENOENT), w)
      | some _ => (.ok ⟨.T_FILE, .mirrorFd rel, rel⟩, w)

/-- fstat on a descriptor held by a handle (the null-path branch of
    sfs_getattr): a mirror descriptor reports the mirror file, an anonymous
    artifact reports its byte length with the fixed temp-file mode. -/
def fstatFd (w : World) (fd : FdTarget) : Except Int Stat :=
  match fd with
  | .mirrorFd q =>
    match lookupFile w q with
    | some f => .ok f.stat
    | none => .error (-EBADF)
  | .anonFd d => .ok ⟨0x8180, d.length, 0, 0⟩

/-- sfs_getattr from scriptfs.c.  With a path: fstatat the mirror; if the
    file is regular and get_script matches, clear all write bits from the
    returned mode, and when return_real_size is set additionally run the
    script into a fresh artifact and report the fstat size of that artifact,
    keeping the mirror size when run_script fails (fstat on the negative
    handle fails and the code keeps st_size).  With a null path the stat is
    taken from the handle. -/
def sfs_getattr (P : Persistent) (env : Env) (w : World) (path : Option String)
    (fi : Option FdTarget) : Except Int Stat × World :=
  match path with
  | some p =>
    match relative_path p with
    | none => (.error (-ENOENT), w)
    | some rel =>
      match lookupFile w rel with
      | none => (.error (-ENOENT), w)
      | some f =>
        if S_ISREG f.mode then
          match get_script env w P.procs rel with
          | some proc =>
            if P.return_real_size then
              match run_script env w proc rel with
              | (.ok out, w2) => (.ok ⟨f.mode &&& NOTW, out.length, f.atime, f.mtime⟩, w2)
              | (.error _, w2) => (.ok ⟨f.mode &&& NOTW, f.size, f.atime, f.mtime⟩, w2)
            else (.ok ⟨f.mode &&& NOTW, f.size, f.atime, f.mtime⟩, w)
          | none => (.ok f.stat, w)
        else (.ok f.stat, w)
  | none =>
    match fi with
    | none => (.error (-EBADF), w)
    | some fd => (fstatFd w fd, w)

/-- The effect of chmod on a st_mode value: the permission bits (low twelve)
    are replaced, the file-type bits are kept. -/
def applyChmod (old m : Nat) : Nat := (old &&& 0xFFFFF000) ||| (m &&& 0xFFF)

/-- fchmod on a descriptor held by a handle (the null-path branch of
    sfs_chmod); on an anonymous artifact the mode change has no observable
    effect in the modelled state. -/
def fchmodFd (w : World) (fd : FdTarget) (m : Nat) : Int × World :=
  match fd with
  | .mirrorFd q =>
    match lookupFile w q with
    | some f => (0, updateFile w q { f with mode := applyChmod f.mode m })
    | none => (-EBADF, w)
  | .anonFd _ => (0, w)

/-- sfs_chmod from scriptfs.c.  With a path: fstatat the mirror; if the file
    is regular, the requested mode contains a write bit and get_script
    matches, the write bits are stripped from the requested mode; then
    fchmodat applies the (possibly stripped) mode.  With a null path the mode
    is applied through the handle with no script check (the code comment
    notes get_script would need a file name it does not have).  Ownership
    based fchmodat refusals are outside the modelled state. -/
def sfs_chmod (P : Persistent) (env : Env) (w : World) (path : Option String)
    (m : Nat) (fi : Option FdTarget) : Int × World :=
  match path with
  | some p =>
    match relative_path p with
    | none => (-ENOENT, w)
    | some rel =>
      let m1 :=
        match lookupFile w rel with
        | some f =>
          if S_ISREG f.mode && m &&& S_IWALL != 0 && (get_script env w P.procs rel).isSome
          then m &&& NOTW else m
        | none => m
      match lookupFile w rel with
      | some f => (0, updateFile w rel { f with mode := applyChmod f.mode m1 })
      | none => (-ENOENT, w)
  | none =>
    match fi with
    | none => (-EBADF, w)
    | some fd => fchmodFd w fd m

/-- ftruncate resizes file data, zero-filling when extending. -/
def resizeData (d : Bytes) (size : Nat) : Bytes :=
  d.take size ++ List.replicate (size - d.length) 0

/-- ftruncate on a descriptor held by a handle (the null-path branch of
    sfs_truncate); resizing an anonymous artifact has no observable effect
    in the modelled state. -/
def ftruncateFd (w : World) (fd : FdTarget) (size : Nat) : Int × World :=
  match fd with
  | .mirrorFd q =>
    match lookupFile w q with
    | some f => (0, updateFile w q { f with data := resizeData f.data size, size := size })
    | none => (-EBADF, w)
  | .anonFd _ => (0, w)

/-- sfs_truncate from scriptfs.c.  With a path: fstatat the mirror; a regular
    file matched by get_script is refused with EACCES before anything is
    opened; otherwise the file is opened with O_WRONLY and ftruncated.  The
    descriptor variable is declared uint64_t, so a failed openat is not
    caught by the dead fd less-than-zero test and the subsequent ftruncate
    on the junk descriptor fails with EBADF.  With a null path the size is
    applied through the handle with no script check. -/
def sfs_truncate (P : Persistent) (env : Env) (w : World) (path : Option String)
    (size : Nat) (fi : Option FdTarget) : Int × World :=
  match path with
  | some p =>
    match relative_path p with
    | none => (-ENOENT, w)
    | some rel =>
      let isScript :=
        match lookupFile w rel with
        | some f => S_ISREG f.mode && (get_script env w P.procs rel).isSome
        | none => false
      if isScript then (-EACCES, w)
      else
        match lookupFile w rel with
        | some f =>
          if f.writable then
            (0, updateFile w rel { f with data := resizeData f.data size, size := size })
          else (-EBADF, w)
        | none => (-EBADF, w)
  | none =>
    match fi with
    | none => (-EBADF, w)
    | some fd => ftruncateFd w fd size

/-- futimens on a descriptor held by a handle (the null-path branch of
    sfs_utimens); times of an anonymous artifact are not part of the
    modelled state. -/
def futimensFd (w : World) (fd : FdTarget) (ts : Int × Int) : Int × World :=
  match fd with
  | .mirrorFd q =>
    match lookupFile w q with
    | some f => (0, updateFile w q { f with atime := ts.fst, mtime := ts.snd })
    | none => (-EBADF, w)
  | .anonFd _ => (0, w)

/-- sfs_utimens from scriptfs.c.  With a path: fstatat the mirror; a regular
    file matched by get_script is refused with EACCES; otherwise utimensat
    applies the two timestamps.  With a null path the times are applied
    through the handle with no script check (the code dereferences fi
    without a null test there; the crash on a null fi is mapped to EBADF). -/
def sfs_utimens (P : Persistent) (env : Env) (w : World) (path : Option String)
    (ts : Int × Int) (fi : Option FdTarget) : Int × World :=
  match path with
  | some p =>
    match relative_path p with
    | none => (-ENOENT, w)
    | some rel =>
      let isScript :=
        match lookupFile w rel with
        | some f => S_ISREG f.mode && (get_script env w P.procs rel).isSome
        | none => false
      if isScript then (-EACCES, w)
      else
        match lookupFile w rel with
        | some f => (0, updateFile w rel { f with atime := ts.fst, mtime := ts.snd })
        | none => (-ENOENT, w)
  | none =>
    match fi with
    | none => (-EBADF, w)
    | some fd => futimensFd w fd ts

/-- The effect of lseek SEEK_SET to off followed by write of buf on file
    contents d: bytes before off are kept (zero-filled past the end), buf is
    written, the tail after the written range is kept. -/
def writeAt (d : Bytes) (off : Nat) (buf : Bytes) : Bytes :=
  d.take off ++ List.replicate (off - d.length) 0 ++ buf ++ d.drop (off + buf.length)

/-- sfs_write from scriptfs.c.  A null fi or null handle is EBADF, a folder
    handle is EISDIR; any other handle, T_FILE and T_SCRIPT alike, is seeked
    and written through its descriptor and the call returns the number of
    bytes written.  A write through a T_SCRIPT handle lands in the anonymous
    artifact (mkstemp opened it read-write); nothing here refuses it. -/
def sfs_write (w : World) (fi : Option FileStruct) (buf : Bytes) (off : Nat) :
    Int × World × Option FileStruct :=
  match fi with
  | none => (-EBADF, w, none)
  | some fs =>
    match fs.type with
    | .T_FOLDER => (-EISDIR, w, some fs)
    | _ =>
      match fs.file_handle with
      | .anonFd d =>
        ((buf.length : Int), w, some { fs with file_handle := .anonFd (writeAt d off buf) })
      | .mirrorFd q =>
        match lookupFile w q with
        | some f =>
          ((buf.length : Int),
           updateFile w q { f with data := writeAt f.data off buf,
                                   size := (writeAt f.data off buf).length },
           some fs)
        | none => (-EBADF, w, some fs)

/-! Sample configuration values used by the concrete witness and
    counterexample theorems below. -/

def progAuto : Program := ⟨.progShell, "", none, none, false⟩

def testAlways : Test := ⟨some .ttrue, "", none, none, false, none⟩

def testNever : Test := ⟨some .tfalse, "", none, none, false, none⟩

def procAlways : Procedure := ⟨progAuto, some testAlways⟩

def procNever : Procedure := ⟨progAuto, some testNever⟩

def env0 : Env := ⟨fun _ _ _ _ => (0, []), 2⟩

def envFail : Env := ⟨fun _ _ _ _ => (127, []), 2⟩

def file0 : MirrorFile := ⟨0x81A4, 3, 5, 7, [104, 105, 10], false, true⟩

def w0 : World := ⟨[("a", file0)], [], ["t1", "t2"]⟩

def P0 : Persistent := ⟨[procAlways], false⟩

def P1 : Persistent := ⟨[procAlways], true⟩

/-! Theorems settling the claims. -/

/-- C9: relative_path maps the root path to a dot and maps every other
    absolute virtual path to the same string with the leading slash removed,
    performing no other normalization. -/
theorem c9_relative_path :
    relative_path "/" = some "." ∧
    ∀ s : String, s ≠ "" → relative_path ("/" ++ s) = some s := by
  refine ⟨rfl, ?_⟩
  intro s hs
  cases s with
  | mk l =>
    cases l with
    | nil => exact absurd rfl hs
    | cons c cs => rfl

/-- Witness for C9 at the concrete path of the spec. -/
theorem c9_relative_path_witness : relative_path ("/" ++ "x/y") = some "x/y" :=
  c9_relative_path.2 "x/y" (by decide)

theorem get_script_eq_find (env : Env) (w : World) (file : String) :
    ∀ procs : List Procedure,
      get_script env w procs file = procs.find? (fun pr => procMatches env w pr file) := by
  intro procs
  induction procs with
  | nil => rfl
  | cons pr rest ih =>
    by_cases h : procMatches env w pr file = true
    · simp [get_script, List.find?, h]
    · simp only [Bool.not_eq_true] at h
      simp [get_script, List.find?, h, ih]

theorem get_script_append_of_none (env : Env) (w : World) (file : String) :
    ∀ l1 l2 : List Procedure, (∀ pr ∈ l1, procMatches env w pr file = false) →
      get_script env w (l1 ++ l2) file = get_script env w l2 file := by
  intro l1
  induction l1 with
  | nil => intro l2 _; rfl
  | cons q l1 ih =>
    intro l2 h
    have hq : procMatches env w q file = false := h q (by simp)
    rw [List.cons_append, get_script, if_neg (by simp [hq])]
    exact ih l2 (fun pr hpr => h pr (by simp [hpr]))

/-- C4: for every procedure list and path, classification returns the first
    procedure in list order whose test matches (the find-first of the
    matching predicate), returns none when no test matches, and in
    particular when two procedures both match and the first precedes the
    second, the first is chosen. -/
theorem c4_first_match (env : Env) (w : World) (procs : List Procedure) (file : String) :
    get_script env w procs file = procs.find? (fun pr => procMatches env w pr file)
    ∧ ((∀ pr ∈ procs, procMatches env w pr file = false) →
        get_script env w procs file = none)
    ∧ (∀ l1 p1 l2 p2 l3, procs = l1 ++ p1 :: (l2 ++ p2 :: l3) →
        (∀ pr ∈ l1, procMatches env w pr file = false) →
        procMatches env w p1 file = true →
        procMatches env w p2 file = true →
        get_script env w procs file = some p1) := by
  refine ⟨get_script_eq_find env w file procs, ?_, ?_⟩
  · intro h
    rw [get_script_eq_find]
    exact List.find?_eq_none.2 (fun x hx => by simp [h x hx])
  · intro l1 p1 l2 p2 l3 hp h1 hm _
    subst hp
    rw [get_script_append_of_none env w file l1 _ h1, get_script, if_pos (by simp [hm])]

/-- Witness for C4: with a non-matching procedure first and two matching
    procedures after it, the first matching one is returned. -/
theorem c4_first_match_witness :
    get_script env0 w0 [procNever, procAlways, procAlways] "a" = some procAlways :=
  (c4_first_match env0 w0 [procNever, procAlways, procAlways] "a").2.2
    [procNever] procAlways [] procAlways [] rfl
    (fun pr hpr => by rw [List.mem_singleton.1 hpr]; rfl)
    rfl rfl

/-- C1: on a regular mirror file matched by the classifier, opening with
    O_WRONLY or O_RDWR, truncating by path, and setting times by path all
    fail with EACCES, and the whole world, the mirror file included, is
    returned unchanged by the failed call. -/
theorem c1_scripts_readonly (P : Persistent) (env : Env) (w : World)
    (path rel : String) (f : MirrorFile) (proc : Procedure)
    (hrel : relative_path path = some rel)
    (hf : lookupFile w rel = some f)
    (hreg : S_ISREG f.mode = true)
    (hs : get_script env w P.procs rel = some proc) :
    (∀ flags : Nat, (flags &&& O_WRONLY != 0 || flags &&& O_RDWR != 0) = true →
        sfs_open P env w path flags = (.error (-EACCES), w))
    ∧ (∀ size : Nat, ∀ fi, sfs_truncate P env w (some path) size fi = (-EACCES, w))
    ∧ (∀ ts : Int × Int, ∀ fi, sfs_utimens P env w (some path) ts fi = (-EACCES, w)) := by
  refine ⟨?_, ?_, ?_⟩
  · intro flags hw
    simp [sfs_open, hrel, hs, hw]
  · intro size fi
    simp [sfs_truncate, hrel, hf, hreg, hs]
  · intro ts fi
    simp [sfs_utimens, hrel, hf, hreg, hs]

/-- Witness for C1 on the sample script file. -/
theorem c1_scripts_readonly_witness :
    sfs_open P0 env0 w0 "/a" 1 = (.error (-EACCES), w0)
    ∧ sfs_truncate P0 env0 w0 (some "/a") 0 none = (-EACCES, w0)
    ∧ sfs_utimens P0 env0 w0 (some "/a") (0, 0) none = (-EACCES, w0) :=
  have h := c1_scripts_readonly P0 env0 w0 "/a" "a" file0 procAlways rfl rfl rfl rfl
  ⟨h.1 1 rfl, h.2.1 0 none, h.2.2 (0, 0) none⟩

theorem land_NOTW_IW (m : Nat) : (m &&& NOTW) &&& S_IWALL = 0 := by
  rw [Nat.land_assoc]
  have h : NOTW &&& S_IWALL = 0 := by decide
  simp [h]

/-- C8: getattr on a regular mirror file matched by the classifier returns
    the mirror stat with all write permission bits cleared from st_mode
    (whatever the eager-size setting does to st_size); on a file the
    classifier does not match, the stat is returned unchanged. -/
theorem c8_getattr_clears_write (P : Persistent) (env : Env) (w : World)
    (path rel : String) (f : MirrorFile) (fi : Option FdTarget)
    (hrel : relative_path path = some rel)
    (hf : lookupFile w rel = some f) :
    (S_ISREG f.mode = true → (get_script env w P.procs rel).isSome = true →
      ∃ sz w2, sfs_getattr P env w (some path) fi =
          (.ok ⟨f.mode &&& NOTW, sz, f.atime, f.mtime⟩, w2)
        ∧ (f.mode &&& NOTW) &&& S_IWALL = 0)
    ∧ (get_script env w P.procs rel = none →
      sfs_getattr P env w (some path) fi = (.ok f.stat, w)) := by
  constructor
  · intro hreg hsome
    obtain ⟨proc, hs⟩ := Option.isSome_iff_exists.1 hsome
    cases he : P.return_real_size with
    | false =>
      exact ⟨f.size, w, by simp [sfs_getattr, hrel, hf, hreg, hs, he], land_NOTW_IW _⟩
    | true =>
      rcases hfr : w.fresh with _ | ⟨n, rest⟩
      · exact ⟨f.size, w,
          by simp [sfs_getattr, hrel, hf, hreg, hs, he, run_script, hfr], land_NOTW_IW _⟩
      · exact ⟨(run_program env { w with fresh := rest } proc.program rel).2.1.length,
          (run_program env { w with fresh := rest } proc.program rel).2.2,
          by simp [sfs_getattr, hrel, hf, hreg, hs, he, run_script, hfr], land_NOTW_IW _⟩
  · intro hnone
    by_cases hreg : S_ISREG f.mode = true
    · simp [sfs_getattr, hrel, hf, hreg, hnone]
    · simp only [Bool.not_eq_true] at hreg
      simp [sfs_getattr, hrel, hf, hreg, hnone]

/-- Witness for C8 on the sample script file. -/
theorem c8_getattr_clears_write_witness :
    ∃ sz w2, sfs_getattr P0 env0 w0 (some "/a") none =
        (.ok ⟨file0.mode &&& NOTW, sz, file0.atime, file0.mtime⟩, w2)
      ∧ (file0.mode &&& NOTW) &&& S_IWALL = 0 :=
  (c8_getattr_clears_write P0 env0 w0 "/a" "a" file0 none rfl rfl).1 rfl rfl

/-- C5: with eager size set, getattr on a script reports st_size equal to
    the byte length of the stdout captured by running the program of the
    matched procedure; when running the script fails (mkstemp yields no
    artifact) the stat still succeeds and falls back to the mirror size;
    without eager size, st_size is the mirror size. -/
theorem c5_eager_size (P : Persistent) (env : Env) (w : World)
    (path rel : String) (f : MirrorFile) (proc : Procedure) (fi : Option FdTarget)
    (hrel : relative_path path = some rel)
    (hf : lookupFile w rel = some f)
    (hreg : S_ISREG f.mode = true)
    (hs : get_script env w P.procs rel = some proc) :
    (P.return_real_size = true → ∀ n rest, w.fresh = n :: rest →
      sfs_getattr P env w (some path) fi =
        (.ok ⟨f.mode &&& NOTW,
              (run_program env { w with fresh := rest } proc.program rel).2.1.length,
              f.atime, f.mtime⟩,
         (run_program env { w with fresh := rest } proc.program rel).2.2))
    ∧ (P.return_real_size = true → w.fresh = [] →
      sfs_getattr P env w (some path) fi =
        (.ok ⟨f.mode &&& NOTW, f.size, f.atime, f.mtime⟩, w))
    ∧ (P.return_real_size = false →
      sfs_getattr P env w (some path) fi =
        (.ok ⟨f.mode &&& NOTW, f.size, f.atime, f.mtime⟩, w)) := by
  refine ⟨?_, ?_, ?_⟩
  · intro he n rest hfr
    simp [sfs_getattr, hrel, hf, hreg, hs, he, run_script, hfr]
  · intro he hfr
    simp [sfs_getattr, hrel, hf, hreg, hs, he, run_script, hfr]
  · intro he
    simp [sfs_getattr, hrel, hf, hreg, hs, he]

/-- Witness for C5: eager-size stat of the sample script runs the program
    and reports the length of its captured stdout. -/
theorem c5_eager_size_witness :
    sfs_getattr P1 env0 w0 (some "/a") none =
      (.ok ⟨file0.mode &&& NOTW,
            (run_program env0 { w0 with fresh := ["t2"] } procAlways.program "a").2.1.length,
            file0.atime, file0.mtime⟩,
       (run_program env0 { w0 with fresh := ["t2"] } procAlways.program "a").2.2) :=
  (c5_eager_size P1 env0 w0 "/a" "a" file0 procAlways none rfl rfl rfl rfl).1
    rfl "t1" ["t2"] rfl

/-- C6: open of a classifier-matched path without write-mode flags succeeds
    with a Script handle whatever the child process does: the exit status of
    the program is ignored and the artifact holds whatever stdout the child
    produced, possibly empty or partial.  The only failures open can return
    for a matched path are EACCES for write-mode flags and the negated
    mkstemp errno when the temp artifact cannot be created. -/
theorem c6_open_ignores_child_failure (P : Persistent) (env : Env) (w : World)
    (path rel : String) (proc : Procedure)
    (hrel : relative_path path = some rel)
    (hs : get_script env w P.procs rel = some proc) :
    (∀ flags n rest, (flags &&& O_WRONLY != 0 || flags &&& O_RDWR != 0) = false →
      w.fresh = n :: rest →
      sfs_open P env w path flags =
        (.ok ⟨.T_SCRIPT,
              .anonFd (run_program env { w with fresh := rest } proc.program rel).2.1,
              rel⟩,
         (run_program env { w with fresh := rest } proc.program rel).2.2))
    ∧ (∀ flags e w2, sfs_open P env w path flags = (.error e, w2) →
      ((flags &&& O_WRONLY != 0 || flags &&& O_RDWR != 0) = true ∧ e = -EACCES)
      ∨ (w.fresh = [] ∧ e = -env.mkstempErrno)) := by
  constructor
  · intro flags n rest hw hfr
    simp [sfs_open, hrel, hs, hw, run_script, hfr]
  · intro flags e w2 h
    by_cases hw : (flags &&& O_WRONLY != 0 || flags &&& O_RDWR != 0) = true
    · left
      refine ⟨hw, ?_⟩
      simp [sfs_open, hrel, hs, hw] at h
      exact h.1.symm
    · right
      have hw2 : (flags &&& O_WRONLY != 0 || flags &&& O_RDWR != 0) = false := by
        simpa using hw
      rcases hfr : w.fresh with _ | ⟨n, rest⟩
      · refine ⟨rfl, ?_⟩
        simp [sfs_open, hrel, hs, hw2, run_script, hfr] at h
        exact h.1.symm
      · exfalso
        simp [sfs_open, hrel, hs, hw2, run_script, hfr] at h

/-- Witness for C6: a failing child (nonzero exit, empty stdout) still lets
    open succeed with a Script handle. -/
theorem c6_open_ignores_child_failure_witness :
    sfs_open P0 envFail w0 "/a" 0 =
      (.ok ⟨.T_SCRIPT,
            .anonFd (run_program envFail { w0 with fresh := ["t2"] } procAlways.program "a").2.1,
            "a"⟩,
       (run_program envFail { w0 with fresh := ["t2"] } procAlways.program "a").2.2) :=
  (c6_open_ignores_child_failure P0 envFail w0 "/a" "a" procAlways rfl rfl).1
    0 "t1" ["t2"] rfl rfl

/-- C10: with a null path and a handle whose stored descriptor designates a
    mirror file, chmod, truncate and utimens apply the operation directly to
    that file with no script classification: even on a regular file the
    classifier matches, the requested mode (write bits included), size or
    times are applied and the call returns success, not EACCES; the results
    do not consult the procedure list at all. -/
theorem c10_handle_ops_skip_classification (P : Persistent) (env : Env) (w : World)
    (q : String) (f : MirrorFile)
    (hf : lookupFile w q = some f)
    (_hreg : S_ISREG f.mode = true)
    (_hs : (get_script env w P.procs q).isSome = true) :
    (∀ m, sfs_chmod P env w none m (some (.mirrorFd q)) =
        (0, updateFile w q { f with mode := applyChmod f.mode m }))
    ∧ (∀ size, sfs_truncate P env w none size (some (.mirrorFd q)) =
        (0, updateFile w q { f with data := resizeData f.data size, size := size }))
    ∧ (∀ ts : Int × Int, sfs_utimens P env w none ts (some (.mirrorFd q)) =
        (0, updateFile w q { f with atime := ts.fst, mtime := ts.snd })) := by
  refine ⟨?_, ?_, ?_⟩
  · intro m
    simp [sfs_chmod, fchmodFd, hf]
  · intro size
    simp [sfs_truncate, ftruncateFd, hf]
  · intro ts
    simp [sfs_utimens, futimensFd, hf]

/-- Witness for C10: a chmod through the handle of the sample script file
    applies a mode with write bits and succeeds. -/
theorem c10_handle_ops_skip_classification_witness :
    sfs_chmod P0 env0 w0 none 438 (some (.mirrorFd "a")) =
      (0, updateFile w0 "a" { file0 with mode := applyChmod file0.mode 438 }) :=
  (c10_handle_ops_skip_classification P0 env0 w0 "a" file0 rfl rfl rfl).1 438

/-- Counterexample to C2 as stated: on the sample script file (regular and
    matched by the always test), a chmod by path requesting mode octal 666,
    which adds write bits for user, group and other, returns 0 (success),
    not minus EACCES. -/
theorem c2_chmod_eacces_counterexample :
    (sfs_chmod P0 env0 w0 (some "/a") 438 none).fst = 0
    ∧ (sfs_chmod P0 env0 w0 (some "/a") 438 none).fst ≠ -EACCES := by
  constructor
  · rfl
  · decide

/-- C2 amended: a chmod by path on a regular mirror file matched by the
    classifier, whose requested mode adds any write bit, does not fail with
    EACCES; the code silently clears all write bits from the requested mode
    and applies the remaining mode to the mirror file, returning success. -/
theorem c2_chmod_strips_write (P : Persistent) (env : Env) (w : World)
    (path rel : String) (f : MirrorFile) (m : Nat)
    (hrel : relative_path path = some rel)
    (hf : lookupFile w rel = some f)
    (hreg : S_ISREG f.mode = true)
    (hw : (m &&& S_IWALL != 0) = true)
    (hs : (get_script env w P.procs rel).isSome = true) :
    sfs_chmod P env w (some path) m none =
      (0, updateFile w rel { f with mode := applyChmod f.mode (m &&& NOTW) }) := by
  simp [sfs_chmod, hrel, hf, hreg, hw, hs]

/-- Witness for the amended C2 on the sample script file. -/
theorem c2_chmod_strips_write_witness :
    sfs_chmod P0 env0 w0 (some "/a") 438 none =
      (0, updateFile w0 "a" { file0 with mode := applyChmod file0.mode (438 &&& NOTW) }) :=
  c2_chmod_strips_write P0 env0 w0 "/a" "a" file0 438 rfl rfl rfl rfl rfl

def scriptHandle0 : FileStruct := ⟨.T_SCRIPT, .anonFd [1, 2, 3], "a"⟩

/-- Counterexample to C3 as stated: a write request on a Script handle does
    not fail; it returns the number of bytes written and the temp artifact
    contents change. -/
theorem c3_write_script_counterexample :
    sfs_write w0 (some scriptHandle0) [9] 0 =
      (1, w0, some ⟨.T_SCRIPT, .anonFd [9, 2, 3], "a"⟩)
    ∧ (sfs_write w0 (some scriptHandle0) [9] 0).2.2 ≠ some scriptHandle0 := by
  constructor
  · rfl
  · decide

/-- C3 amended: sfs_write performs no Script-handle check; a write request
    on a Script handle seeks and writes into the anonymous temp artifact
    exactly as on a regular handle and returns the byte count.  Scripts are
    protected from writes only by the open-time EACCES refusal of write-mode
    flags, not by the write operation itself. -/
theorem c3_write_goes_through (w : World) (nm : String) (d buf : Bytes) (off : Nat) :
    sfs_write w (some ⟨.T_SCRIPT, .anonFd d, nm⟩) buf off =
      ((buf.length : Int), w, some ⟨.T_SCRIPT, .anonFd (writeAt d off buf), nm⟩) := rfl

/-- The world just after temp_copy has succeeded with fresh name n: the copy
    of the mirror file is linked under n and n is consumed from the fresh
    stream. -/
def tempWorld (w : World) (n : String) (f : MirrorFile) (rest : List String) : World :=
  { w with temps := (n, ⟨f.data, f.mode &&& 320⟩) :: w.temps, fresh := rest }

theorem lookup_removeTemp (w : World) (n : String) :
    List.lookup n (removeTemp w n).temps = none := by
  show List.lookup n (w.temps.filter (fun e => !(e.fst == n))) = none
  induction w.temps with
  | nil => rfl
  | cons e ts ih =>
    by_cases h : e.fst = n
    · simpa [List.filter_cons, h] using ih
    · have hne : (n == e.fst) = false := by
        simp [beq_iff_eq]
        exact fun hh => h hh.symm
      simpa [List.filter_cons, h, List.lookup, hne] using ih

/-- C7: with one command spec serving as both program and test (same argv
    template and placeholder position), the placeholder is substituted with
    the virtual mirror-relative path in the test invocation, and with the
    name of a freshly created temp copy of the mirror file in the program
    invocation; the copy holds the mirror file bytes while the child runs
    and is unlinked after the child exits. -/
theorem c7_placeholder_asymmetry (env : Env) (w : World) (t : Test) (p : Program)
    (file : String) (l : List String) (i : Nat) (f : MirrorFile)
    (n : String) (rest : List String)
    (hta : t.args = some l) (htf : t.filearg = some i)
    (hpa : p.args = some l) (hpf : p.filearg = some i)
    (_hpath : t.path = p.path)
    (hi : i < l.length)
    (hf : lookupFile w file = some f)
    (hfresh : w.fresh = n :: rest) :
    (test_program env w t file =
        ((env.exec w t.path (l.set i file)
            (if t.filter then some f.data else none)).fst == 0)
      ∧ (l.set i file)[i]? = some file)
    ∧ (program_external env w p file =
        ((env.exec (tempWorld w n f rest) p.path (l.set i n) none).fst,
         (env.exec (tempWorld w n f rest) p.path (l.set i n) none).snd,
         removeTemp (tempWorld w n f rest) n)
      ∧ (l.set i n)[i]? = some n
      ∧ List.lookup n (tempWorld w n f rest).temps = some ⟨f.data, f.mode &&& 320⟩
      ∧ List.lookup n (removeTemp (tempWorld w n f rest) n).temps = none) := by
  refine ⟨⟨?_, ?_⟩, ?_, ?_, ?_, ?_⟩
  · cases hft : t.filter
    · simp [test_program, hta, htf, hft]
    · simp [test_program, hta, htf, hft, hf]
  · exact List.getElem?_set_eq_of_lt _ (by simpa using hi)
  · simp [program_external, hpa, hpf, temp_copy, hf, hfresh, setArg, tempWorld]
  · exact List.getElem?_set_eq_of_lt _ (by simpa using hi)
  · simp [tempWorld, List.lookup]
  · exact lookup_removeTemp _ n

def testProg1 : Test := ⟨some .prog, "prog", some ["prog", "!"], some 1, false, none⟩

def prog1 : Program := ⟨.progExternal, "prog", some ["prog", "!"], some 1, false⟩

/-- Witness for C7 with a concrete two-element argv template whose
    placeholder sits at index one. -/
theorem c7_placeholder_asymmetry_witness :
    (test_program env0 w0 testProg1 "a" =
        ((env0.exec w0 testProg1.path (["prog", "!"].set 1 "a")
            (if testProg1.filter then some file0.data else none)).fst == 0))
    ∧ (program_external env0 w0 prog1 "a" =
        ((env0.exec (tempWorld w0 "t1" file0 ["t2"]) prog1.path
            (["prog", "!"].set 1 "t1") none).fst,
         (env0.exec (tempWorld w0 "t1" file0 ["t2"]) prog1.path
            (["prog", "!"].set 1 "t1") none).snd,
         removeTemp (tempWorld w0 "t1" file0 ["t2"]) "t1")) :=
  have h := c7_placeholder_asymmetry env0 w0 testProg1 prog1 "a" ["prog", "!"] 1 file0
      "t1" ["t2"] rfl rfl rfl rfl rfl (by decide) rfl rfl
  ⟨h.1.1, h.2.1⟩

end ScriptFS
